import Mathlib

/-!
Verification development for the gltf-starfield converter (src/main.ts).

The source is a Deno/TypeScript batch program that parses the fixed-width
Yale Bright Star Catalog, builds a 10-entry spectral material palette,
computes a rotation/scale/translation per star, and assembles a glTF scene.
JavaScript numbers are modelled with exact rationals (parser, palette) and
real numbers (transforms); a JavaScript NaN arising from a failed numeric
parse is modelled by Option.none, and NaN propagation through arithmetic by
Option matching.  JavaScript strings are modelled as lists of characters.
-/

namespace Starfield

/-! ## JavaScript string and number primitives -/

/-- Characters treated as whitespace by the JavaScript functions used in the
source (parseInt, parseFloat and String.prototype.trim skip them).  The
catalog is ASCII, so the ASCII whitespace characters plus NBSP and BOM
cover every input the program can see. -/
def isJsWs (c : Char) : Bool :=
  c = ' ' || c = '\t' || c = '\n' || c = '\r' || c = '\x0b' || c = '\x0c' ||
  c = '\u00A0' || c = '\uFEFF'

/-- Model of the two-argument String.prototype.substring: indices are clamped
to the string length and swapped when given in descending order. -/
def jsSub (l : List Char) (a b : ℕ) : List Char :=
  (l.drop (min a b)).take (max a b - min a b)

/-- Model of String.prototype.trim: strip whitespace from both ends. -/
def jsTrim (l : List Char) : List Char :=
  ((l.dropWhile isJsWs).reverse.dropWhile isJsWs).reverse

/-- Value of a list of decimal digit characters read most-significant first. -/
def digitsVal (ds : List Char) : ℕ :=
  ds.foldl (fun a c => 10 * a + (c.toNat - 48)) 0

/-- Signed exponent digits after the e of a decimal literal; zero when no
digit follows the optional sign, since the clause is then not part of the
parsed prefix and contributes the factor one, exactly as in JavaScript. -/
def expSigned : List Char → ℤ
  | '-' :: t => -(digitsVal (t.takeWhile Char.isDigit) : ℤ)
  | '+' :: t => (digitsVal (t.takeWhile Char.isDigit) : ℤ)
  | t => (digitsVal (t.takeWhile Char.isDigit) : ℤ)

/-- Exponent denoted by an optional trailing e / E clause of a decimal
literal. -/
def expPart : List Char → ℤ
  | 'e' :: t => expSigned t
  | 'E' :: t => expSigned t
  | _ => 0

/-- Magnitude part of parseFloat: longest prefix matching
digits [ . digits ] [ exponent ]; none when no digit is found, mirroring a
JavaScript NaN result. -/
def jsParseFloatMag (cs : List Char) : Option ℚ :=
  let ints := cs.takeWhile Char.isDigit
  let rest := cs.dropWhile Char.isDigit
  let fras :=
    match rest with
    | '.' :: t => t.takeWhile Char.isDigit
    | _ => []
  let rest2 :=
    match rest with
    | '.' :: t => t.dropWhile Char.isDigit
    | _ => rest
  if ints.isEmpty && fras.isEmpty then none
  else
    let mant : ℚ := (digitsVal ints : ℚ) + (digitsVal fras : ℚ) / 10 ^ fras.length
    some (mant * (10 : ℚ) ^ (expPart rest2))

/-- Model of the global parseFloat applied to the fixed-width catalog
columns: skip leading whitespace, optional sign, then the decimal literal.
The Infinity keyword is omitted: every call site in the source passes a
substring of at most five characters, too short to spell it. -/
def jsParseFloat (cs : List Char) : Option ℚ :=
  let cs := cs.dropWhile isJsWs
  match cs with
  | '-' :: t => (jsParseFloatMag t).map (fun q => -q)
  | '+' :: t => jsParseFloatMag t
  | _ => jsParseFloatMag cs

/-- Is the character a hexadecimal digit. -/
def isHexDigit (c : Char) : Bool :=
  c.isDigit || ('a' ≤ c && c ≤ 'f') || ('A' ≤ c && c ≤ 'F')

/-- Value of one hexadecimal digit character. -/
def hexDigitVal (c : Char) : ℕ :=
  if c.isDigit then c.toNat - 48
  else if 'a' ≤ c && c ≤ 'f' then c.toNat - 87
  else c.toNat - 55

/-- Magnitude part of parseInt without an explicit radix: a 0x or 0X prefix
selects hexadecimal, otherwise decimal digits; none when no digit follows,
mirroring a JavaScript NaN result. -/
def jsParseIntMag (cs : List Char) : Option ℤ :=
  match cs with
  | '0' :: 'x' :: t =>
    let hs := t.takeWhile isHexDigit
    if hs.isEmpty then none
    else some (hs.foldl (fun a c => 16 * a + (hexDigitVal c : ℤ)) 0)
  | '0' :: 'X' :: t =>
    let hs := t.takeWhile isHexDigit
    if hs.isEmpty then none
    else some (hs.foldl (fun a c => 16 * a + (hexDigitVal c : ℤ)) 0)
  | _ =>
    let ds := cs.takeWhile Char.isDigit
    if ds.isEmpty then none else some (digitsVal ds : ℤ)

/-- Model of the global parseInt with no radix argument: skip leading
whitespace, optional sign, then the integer literal. -/
def jsParseInt (cs : List Char) : Option ℤ :=
  let cs := cs.dropWhile isJsWs
  match cs with
  | '-' :: t => (jsParseIntMag t).map Neg.neg
  | '+' :: t => jsParseIntMag t
  | _ => jsParseIntMag cs

/-- Model of String.prototype.split with separator a single newline: every
occurrence of the separator splits, empty pieces are kept, and the empty
string yields one empty piece. -/
def splitNl : List Char → List (List Char)
  | [] => [[]]
  | '\n' :: t => [] :: splitNl t
  | c :: t =>
    match splitNl t with
    | h :: r => (c :: h) :: r
    | [] => [[c]]

/-! ## CatalogParser (function parse, src/main.ts lines 65 to 99) -/

/-- One parsed catalog record, the starData tuple of the source.  The
spectralClass field is an Option: the source stores the first character of
the trimmed spectral-type substring, which is undefined when that substring
is empty. -/
structure StarData where
  bsn : ℤ
  ra : ℚ
  de : ℚ
  mag : ℚ
  sc : Option Char
  name : String
  deriving DecidableEq, Repr

/-- Catalog id column: parseInt of substring 0 to 4. -/
def bsnOpt (l : List Char) : Option ℤ := jsParseInt (jsSub l 0 4)

/-- Right ascension in degrees from the hour, minute and second columns; none
models the NaN that propagates when any column fails to parse. -/
def raOpt (l : List Char) : Option ℚ :=
  match jsParseFloat (jsSub l 75 77), jsParseFloat (jsSub l 77 79),
      jsParseFloat (jsSub l 79 83) with
  | some h, some m, some s => some (((h + m / 60 + s / 3600) / 24) * 360)
  | _, _, _ => none

/-- Sign factor of the declination, taken from the single character at
column 83: a minus sign gives -1, anything else (including the empty
substring of a short line) gives +1. -/
def deSign (l : List Char) : ℚ := if jsSub l 83 84 = ['-'] then -1 else 1

/-- Declination in degrees from the sign, degree, minute and second columns;
none models the NaN that propagates when a numeric column fails to parse. -/
def deOpt (l : List Char) : Option ℚ :=
  match jsParseFloat (jsSub l 84 86), jsParseFloat (jsSub l 86 88),
      jsParseFloat (jsSub l 88 90) with
  | some d, some mi, some se => some (deSign l * (d + mi / 60 + se / 3600))
  | _, _, _ => none

/-- Magnitude column: parseFloat of substring 102 to 107. -/
def magOpt (l : List Char) : Option ℚ := jsParseFloat (jsSub l 102 107)

/-- Spectral class: first character of the trimmed spectral-type substring
(columns 127 to 147); none when that substring is empty. -/
def scOf (l : List Char) : Option Char := (jsTrim (jsSub l 127 147)).head?

/-- Display name: the two trimmed name sub-fields joined with one space, the
join trimmed again (so an empty sub-field falls back to the other). -/
def nameOf (l : List Char) : String :=
  String.mk (jsTrim (jsTrim (jsSub l 4 13) ++ [' '] ++ jsTrim (jsSub l 14 25)))

/-- Parse one catalog line: the source skips the line when any of id, right
ascension, declination or magnitude is NaN, otherwise emits the record. -/
def parseLine (l : List Char) : Option StarData :=
  match bsnOpt l, raOpt l, deOpt l, magOpt l with
  | some b, some r, some d, some m => some ⟨b, r, d, m, scOf l, nameOf l⟩
  | _, _, _, _ => none

/-- The parse function of the source: split the input on newlines and emit
records of the surviving lines in input order. -/
def parse (data : String) : List StarData :=
  (splitNl data.data).filterMap parseLine

/-- A line is malformed when one of the four numeric fields fails to parse to
a finite number; the source detects this with an isNaN check. -/
def malformedB (l : List Char) : Bool :=
  (bsnOpt l).isNone || (raOpt l).isNone || (deOpt l).isNone || (magOpt l).isNone

/-! ## SpectralPalette (createMaterials and spectralClassToColor,
src/main.ts lines 101 to 156) -/

/-- An RGB color triple. -/
structure Col3 where
  r : ℚ
  g : ℚ
  b : ℚ
  deriving DecidableEq, Repr

/-- An RGBA color quadruple. -/
structure Col4 where
  r : ℚ
  g : ℚ
  b : ℚ
  a : ℚ
  deriving DecidableEq, Repr

/-- One glTF material as configured by createMaterials.  The extras field of
the source holds the class letter, kept here as cls. -/
structure MatDesc where
  emissive : Col3
  baseColor : Col4
  metallic : ℚ
  roughness : ℚ
  cls : Char
  deriving DecidableEq, Repr

/-- The ten spectral classes for which materials are created. -/
def starClasses : List Char := ['O', 'W', 'B', 'A', 'F', 'G', 'K', 'M', 'C', 'S']

/-- The switch statement of spectralClassToColor: the Harvard-classification
color table, keyed on the upper-cased class letter, with a white default. -/
def spectralTable (cls : Char) : Col3 :=
  match cls.toUpper with
  | 'O' => ⟨0.57, 0.71, 1⟩
  | 'W' => ⟨0.57, 0.71, 1⟩
  | 'B' => ⟨0.63, 0.75, 1⟩
  | 'A' => ⟨0.83, 0.875, 1⟩
  | 'F' => ⟨0.97, 0.95, 1⟩
  | 'G' => ⟨1, 0.92, 0.88⟩
  | 'K' => ⟨1, 0.85, 0.70⟩
  | 'M' => ⟨1, 0.70, 0.42⟩
  | 'C' => ⟨1, 0.70, 0.42⟩
  | 'S' => ⟨1, 0.70, 0.42⟩
  | _ => ⟨1, 1, 1⟩

/-- spectralClassToColor: the table color with every channel multiplied by
itself (the contrast boost of the source). -/
def spectralClassToColor (cls : Char) : Col3 :=
  let c := spectralTable cls
  ⟨c.r * c.r, c.g * c.g, c.b * c.b⟩

/-- The material built for one class letter: the squared color as both
emissive and base color (base color with alpha one), metallic zero,
roughness one, and the class letter in the extras. -/
def mkMat (cls : Char) : MatDesc :=
  let c := spectralClassToColor cls
  ⟨c, ⟨c.r, c.g, c.b, 1⟩, 0, 1, cls⟩

/-- createMaterials: the reduce of the source, building the class-keyed
material map in class-list order; modelled as an association list. -/
def createMaterials : List (Char × MatDesc) :=
  starClasses.foldl (fun acc cls => acc ++ [(cls, mkMat cls)]) []

/-- Association-list lookup modelling the JavaScript object property read. -/
def matLookup (ms : List (Char × MatDesc)) (c : Char) : Option MatDesc :=
  match ms.find? (fun p => p.1 = c) with
  | some p => some p.2
  | none => none

/-- The material the render loop picks for a record: the property read
materials[sc] misses both when the class is undefined and when the letter
is outside the map, yielding undefined, modelled as none. -/
def matFor (ms : List (Char × MatDesc)) (sc : Option Char) : Option MatDesc :=
  sc.bind (matLookup ms)

/-! ## StarTransformCalculator and SceneAssembler
(function render, src/main.ts lines 158 to 237)

The rotation math is performed by the playcanvas library: Quat constructed as
the identity, Quat.setFromAxisAngle over an axis and an angle in degrees,
Quat.mul2, and Quat.transformVector; the axis constants are Vec3.UP (0,1,0),
Vec3.RIGHT (1,0,0) and Vec3.FORWARD (0,0,-1).  Those library bodies are
transcribed here over the real numbers. -/

/-- A 3-vector of reals (playcanvas Vec3). -/
structure V3 where
  x : ℝ
  y : ℝ
  z : ℝ

/-- A quaternion of reals in playcanvas component order x, y, z, w. -/
structure Q4 where
  x : ℝ
  y : ℝ
  z : ℝ
  w : ℝ

/-- Vec3.UP. -/
def vUP : V3 := ⟨0, 1, 0⟩

/-- Vec3.RIGHT. -/
def vRIGHT : V3 := ⟨1, 0, 0⟩

/-- Vec3.FORWARD. -/
def vFORWARD : V3 := ⟨0, 0, -1⟩

/-- A Quat constructed with no arguments: the identity rotation. -/
def qIdentity : Q4 := ⟨0, 0, 0, 1⟩

/-- Quat.setFromAxisAngle: the angle arrives in degrees, is halved and
converted to radians, and the quaternion is the sine of that half-angle
times the axis together with its cosine; every component of the target is
overwritten, none is read. -/
noncomputable def setFromAxisAngle (axis : V3) (deg : ℝ) : Q4 :=
  let a := deg * 0.5 * (Real.pi / 180)
  ⟨Real.sin a * axis.x, Real.sin a * axis.y, Real.sin a * axis.z, Real.cos a⟩

/-- Quat.mul2: the Hamilton product, writing the first argument times the
second into the target; every component of the target is overwritten. -/
def mul2 (a b : Q4) : Q4 :=
  ⟨a.w * b.x + a.x * b.w + a.y * b.z - a.z * b.y,
   a.w * b.y + a.y * b.w + a.z * b.x - a.x * b.z,
   a.w * b.z + a.z * b.w + a.x * b.y - a.y * b.x,
   a.w * b.w - a.x * b.x - a.y * b.y - a.z * b.z⟩

/-- Quat.transformVector: conjugation of the vector by the quaternion,
computed exactly as in the playcanvas source (first the quaternion times
the vector, then that times the conjugate, keeping the vector part). -/
def transformVector (q : Q4) (v : V3) : V3 :=
  let ix := q.w * v.x + q.y * v.z - q.z * v.y
  let iy := q.w * v.y + q.z * v.x - q.x * v.z
  let iz := q.w * v.z + q.x * v.y - q.y * v.x
  let iw := -q.x * v.x - q.y * v.y - q.z * v.z
  ⟨ix * q.w + iw * -q.x + iy * -q.z - iz * -q.y,
   iy * q.w + iw * -q.y + iz * -q.x - ix * -q.z,
   iz * q.w + iw * -q.z + ix * -q.y - iy * -q.x⟩

/-- The combined per-star rotation: right ascension about the up axis as the
left factor, declination about the right axis as the right factor. -/
noncomputable def quatFor (ra de : ℝ) : Q4 :=
  mul2 (setFromAxisAngle vUP ra) (setFromAxisAngle vRIGHT de)

/-- The magnitude-to-scale curve of the source: 4 to the power
(6 - magnitude) / 4, divided by 15. -/
noncomputable def jsScale (mag : ℝ) : ℝ := ((4 : ℝ) ^ ((6 - mag) / 4)) / 15

/-- Number.prototype.toFixed(2) re-read by parseFloat: rounding to two
decimal places, halves away from zero toward the larger candidate. -/
noncomputable def round2 (x : ℝ) : ℝ := ((round (x * 100) : ℤ) : ℝ) / 100

/-- Number.prototype.toFixed(3) re-read by parseFloat: rounding to three
decimal places. -/
noncomputable def round3 (x : ℝ) : ℝ := ((round (x * 1000) : ℤ) : ℝ) / 1000

/-- The extras metadata block attached to each node. -/
structure Extras where
  mag : ℚ
  bsn : ℤ
  name : String
  deriving DecidableEq, Repr

/-- One glTF primitive: the index of the position accessor it references,
its material (none models an undefined material lookup), and its draw mode
(6 is TRIANGLE_FAN). -/
structure Prim where
  position : ℕ
  material : Option MatDesc
  mode : ℕ
  deriving DecidableEq, Repr

/-- One glTF mesh: its list of primitives. -/
structure MeshD where
  prims : List Prim
  deriving DecidableEq, Repr

/-- One scene node: its mesh, transform and extras. -/
structure Node where
  mesh : MeshD
  rotation : Q4
  scaleV : V3
  translation : V3
  extras : Extras

/-- One buffer-view accessor: its element type tag and flat number array. -/
structure Accessor where
  typ : String
  array : List ℚ
  deriving DecidableEq, Repr

/-- The octagon fan coordinates: the literal Float32Array of the source, each
entry multiplied by 0.001. -/
def octagonCoords : List ℚ :=
  ([0, 0, 0,
    10, 0, 0,
    7, 7, 0,
    0, 10, 0,
    -7, 7, 0,
    -10, 0, 0,
    -7, -7, 0,
    0, -10, 0,
    7, -7, 0,
    10, 0, 0] : List ℚ).map (fun n => n * 0.001)

/-- The assembled document: its accessors, its materials and the child list
of the root scene. -/
structure Doc where
  accessors : List Accessor
  materials : List (Char × MatDesc)
  sceneChildren : List Node

/-- The three reused scratch quaternions of the render loop. -/
structure Scratch where
  q1 : Q4
  q2 : Q4
  q : Q4

/-- The scratch quaternions as created before the loop: three identity
quaternions. -/
def initScratch : Scratch := ⟨qIdentity, qIdentity, qIdentity⟩

/-- One loop iteration's writes to the scratch quaternions: q1 and q2 are
fully overwritten from the star's coordinates alone, q from q1 and q2. -/
noncomputable def stepScratch (_s : Scratch) (e : StarData) : Scratch :=
  let q1 := setFromAxisAngle vUP (e.ra : ℝ)
  let q2 := setFromAxisAngle vRIGHT (e.de : ℝ)
  ⟨q1, q2, mul2 q1 q2⟩

/-- The node built for one star from the combined quaternion: a fresh mesh
whose single primitive references accessor index zero (the shared octagon)
and the material looked up by spectral class; rotation and scale rounded to
two decimals, translation (the quaternion applied to the forward vector)
rounded to three. -/
noncomputable def mkNode (ms : List (Char × MatDesc)) (e : StarData) (q : Q4) : Node :=
  let t := transformVector q vFORWARD
  let s := jsScale (e.mag : ℝ)
  { mesh := ⟨[⟨0, matFor ms e.sc, 6⟩]⟩
    rotation := ⟨round2 q.x, round2 q.y, round2 q.z, round2 q.w⟩
    scaleV := ⟨round2 s, round2 s, round2 s⟩
    translation := ⟨round3 t.x, round3 t.y, round3 t.z⟩
    extras := ⟨e.mag, e.bsn, e.name⟩ }

/-- The node a star determines independently of any scratch state. -/
noncomputable def pureNode (ms : List (Char × MatDesc)) (e : StarData) : Node :=
  mkNode ms e (quatFor (e.ra : ℝ) (e.de : ℝ))

/-- The forEach of the render function: thread the scratch quaternions
through the records in catalog order, appending one node per record. -/
noncomputable def renderChildren (ms : List (Char × MatDesc)) :
    List StarData → Scratch → List Node
  | [], _ => []
  | e :: rest, s =>
    let s1 := stepScratch s e
    mkNode ms e s1.q :: renderChildren ms rest s1

/-- The render function: one accessor holding the shared octagon, the
materials passed in, and one scene child per record. -/
noncomputable def render (entries : List StarData) (ms : List (Char × MatDesc)) : Doc :=
  { accessors := [⟨"VEC3", octagonCoords⟩]
    materials := ms
    sceneChildren := renderChildren ms entries initScratch }

/-! ## Concrete inputs used by the witnesses -/

/-- A synthetic catalog line for Sirius laid out on the exact BSC5 columns:
id 1, name fields Alp and CMa, right ascension 6h 45m 08.9s, declination
-16 deg 42 min 58 sec, magnitude -1.46, spectral type A0mA1 Va. -/
def siriusLine : List Char :=
  ("   1" ++ "Alp      " ++ " " ++ "CMa        " ++
   "                                                  " ++
   " 6" ++ "45" ++ "08.9" ++ "-" ++ "16" ++ "42" ++ "58" ++
   "            " ++ "-1.46" ++
   "                    " ++ "A0mA1 Va            ").data

/-- The record the Sirius line parses to. -/
def siriusRecord : StarData :=
  ⟨1, 243089 / 2400, -30089 / 1800, -73 / 50, some 'A', "Alp CMa"⟩

/-- A 107-character line whose numeric columns parse but whose spectral-type
columns lie beyond the end of the line. -/
def shortLine : List Char :=
  ("   7" ++
   "                                                                       " ++
   "01" ++ "02" ++ "03.0" ++ "-" ++ "04" ++ "05" ++ "06" ++
   "            " ++ " 3.14").data

/-- A record with the spectral class N, which the palette does not contain. -/
def nStar : StarData := ⟨7942, 100, -20, 3, some 'N', "NQ Vul"⟩

/-- A record with the spectral class A, which the palette contains. -/
def aStar : StarData := ⟨1, 0, 0, 0, some 'A', ""⟩

/-! ## Parser lemmas -/

/-- A line yields no record exactly when one of the four numeric fields fails
to parse. -/
theorem parseLine_none_iff (l : List Char) :
    parseLine l = none ↔ malformedB l = true := by
  unfold parseLine malformedB
  cases bsnOpt l <;> cases raOpt l <;> cases deOpt l <;> cases magOpt l <;> simp

/-- A record's fields are the values the corresponding columns parse to. -/
theorem parseLine_fields (l : List Char) (r : StarData) (h : parseLine l = some r) :
    bsnOpt l = some r.bsn ∧ raOpt l = some r.ra ∧ deOpt l = some r.de ∧
      magOpt l = some r.mag ∧ r.sc = scOf l ∧ r.name = nameOf l := by
  revert h
  unfold parseLine
  cases hb : bsnOpt l <;> cases hr : raOpt l <;> cases hd : deOpt l <;>
      cases hm : magOpt l <;> intro h <;>
    first
      | (injection h with h2; subst h2; exact ⟨rfl, rfl, rfl, rfl, rfl, rfl⟩)
      | simp at h

/-- Length of a filterMap plus the number of dropped elements is the length
of the input. -/
theorem length_filterMap_add_countP {α β : Type} (f : α → Option β) :
    ∀ ls : List α,
      (ls.filterMap f).length + ls.countP (fun l => (f l).isNone) = ls.length
  | [] => rfl
  | a :: ls => by
    have ih := length_filterMap_add_countP f ls
    rw [List.filterMap_cons, List.countP_cons]
    cases h : f a <;> simp [h] <;> omega

/-- A filterMap only consumes the elements on which the function fires. -/
theorem filterMap_eq_filter_filterMap {α β : Type} (f : α → Option β) :
    ∀ ls : List α,
      ls.filterMap f = (ls.filter (fun l => (f l).isSome)).filterMap f
  | [] => rfl
  | a :: ls => by
    rw [List.filterMap_cons, List.filter_cons]
    cases h : f a <;>
      simp [h, List.filterMap_cons, filterMap_eq_filter_filterMap f ls]

/-! ## Claim theorems: parser -/

/-- C3: for every line that parses, the record's right ascension equals
(H + M/60 + S/3600)/24 * 360 degrees computed from the parsed RA
hour/minute/second columns, and its declination equals
sign * (D + M/60 + S/3600) degrees with sign -1 exactly when the sign
column character is a minus sign and +1 for any other content. -/
theorem record_ra_de_formula (l : List Char) (r : StarData)
    (h : parseLine l = some r) :
    (∃ hh mm ss, jsParseFloat (jsSub l 75 77) = some hh ∧
        jsParseFloat (jsSub l 77 79) = some mm ∧
        jsParseFloat (jsSub l 79 83) = some ss ∧
        r.ra = ((hh + mm / 60 + ss / 3600) / 24) * 360) ∧
    (∃ dd mi se, jsParseFloat (jsSub l 84 86) = some dd ∧
        jsParseFloat (jsSub l 86 88) = some mi ∧
        jsParseFloat (jsSub l 88 90) = some se ∧
        r.de = (if jsSub l 83 84 = ['-'] then (-1 : ℚ) else 1) *
          (dd + mi / 60 + se / 3600)) := by
  obtain ⟨-, hra, hde, -, -, -⟩ := parseLine_fields l r h
  constructor
  · revert hra
    unfold raOpt
    cases h1 : jsParseFloat (jsSub l 75 77) <;>
        cases h2 : jsParseFloat (jsSub l 77 79) <;>
        cases h3 : jsParseFloat (jsSub l 79 83) <;> intro hra <;>
      first
        | (injection hra with h4; exact ⟨_, _, _, rfl, rfl, rfl, h4.symm⟩)
        | simp at hra
  · revert hde
    unfold deOpt deSign
    cases h1 : jsParseFloat (jsSub l 84 86) <;>
        cases h2 : jsParseFloat (jsSub l 86 88) <;>
        cases h3 : jsParseFloat (jsSub l 88 90) <;> intro hde <;>
      first
        | (injection hde with h4; exact ⟨_, _, _, rfl, rfl, rfl, h4.symm⟩)
        | simp at hde

/-- Witness for C3: the Sirius line parses, and the theorem instantiates on
it. -/
theorem record_ra_de_formula_w :
    parseLine siriusLine = some siriusRecord ∧
    ((∃ hh mm ss, jsParseFloat (jsSub siriusLine 75 77) = some hh ∧
        jsParseFloat (jsSub siriusLine 77 79) = some mm ∧
        jsParseFloat (jsSub siriusLine 79 83) = some ss ∧
        siriusRecord.ra = ((hh + mm / 60 + ss / 3600) / 24) * 360) ∧
      (∃ dd mi se, jsParseFloat (jsSub siriusLine 84 86) = some dd ∧
        jsParseFloat (jsSub siriusLine 86 88) = some mi ∧
        jsParseFloat (jsSub siriusLine 88 90) = some se ∧
        siriusRecord.de = (if jsSub siriusLine 83 84 = ['-'] then (-1 : ℚ) else 1) *
          (dd + mi / 60 + se / 3600))) :=
  ⟨by with_unfolding_all rfl,
   record_ra_de_formula siriusLine siriusRecord (by with_unfolding_all rfl)⟩

/-- C4: parse keeps exactly the lines whose four numeric fields are finite,
in input order, so the record count is the line count minus the malformed
line count; malformed lines are dropped silently (the model is a total
function). -/
theorem parse_count_and_order (data : String) :
    parse data =
      ((splitNl data.data).filter (fun l => !malformedB l)).filterMap parseLine ∧
    (parse data).length =
      (splitNl data.data).length - (splitNl data.data).countP malformedB := by
  have hsome : ∀ l : List Char, (parseLine l).isSome = !malformedB l := by
    intro l
    cases h : parseLine l
    · simp [(parseLine_none_iff l).mp h]
    · have : ¬ malformedB l = true := by
        intro hm
        rw [(parseLine_none_iff l).mpr hm] at h
        exact Option.noConfusion h
      simp [this]
  constructor
  · rw [parse, filterMap_eq_filter_filterMap]
    congr 1
    apply List.filter_congr
    intro l _
    exact hsome l
  · have hlen := length_filterMap_add_countP parseLine (splitNl data.data)
    have hc : (splitNl data.data).countP (fun l => (parseLine l).isNone)
        = (splitNl data.data).countP malformedB := by
      apply List.countP_congr
      intro l _
      have h1 := hsome l
      cases hp : parseLine l <;> rw [hp] at h1 <;> simp_all
    rw [hc] at hlen
    rw [parse]
    omega

/-- C9: a line whose four numeric fields parse but whose spectral-type
columns trim to nothing still yields a record, and that record's spectral
class is undefined; the skip decision never looks at the spectral type. -/
theorem empty_spectral_type_kept (l : List Char)
    (h1 : (bsnOpt l).isSome = true) (h2 : (raOpt l).isSome = true)
    (h3 : (deOpt l).isSome = true) (h4 : (magOpt l).isSome = true)
    (h5 : jsTrim (jsSub l 127 147) = []) :
    ∃ r, parseLine l = some r ∧ r.sc = none := by
  obtain ⟨b, hb⟩ := Option.isSome_iff_exists.mp h1
  obtain ⟨ra, hra⟩ := Option.isSome_iff_exists.mp h2
  obtain ⟨de, hde⟩ := Option.isSome_iff_exists.mp h3
  obtain ⟨mag, hmag⟩ := Option.isSome_iff_exists.mp h4
  refine ⟨⟨b, ra, de, mag, scOf l, nameOf l⟩, ?_, ?_⟩
  · unfold parseLine
    rw [hb, hra, hde, hmag]
  · show (jsTrim (jsSub l 127 147)).head? = none
    rw [h5]
    rfl

/-- Witness for C9: a 107-character line parses with no spectral class. -/
theorem empty_spectral_type_kept_w :
    ((bsnOpt shortLine).isSome = true ∧ (raOpt shortLine).isSome = true ∧
      (deOpt shortLine).isSome = true ∧ (magOpt shortLine).isSome = true ∧
      jsTrim (jsSub shortLine 127 147) = []) ∧
    (∃ r, parseLine shortLine = some r ∧ r.sc = none) :=
  ⟨⟨by with_unfolding_all rfl, by with_unfolding_all rfl, by with_unfolding_all rfl,
    by with_unfolding_all rfl, by with_unfolding_all rfl⟩,
   empty_spectral_type_kept shortLine (by with_unfolding_all rfl)
     (by with_unfolding_all rfl) (by with_unfolding_all rfl)
     (by with_unfolding_all rfl) (by with_unfolding_all rfl)⟩

/-- C10: the parse model is a total function on arbitrary strings; the empty
string parses to the empty record list, and a line too short to reach the
magnitude columns has a non-finite magnitude parse (the extraction is out of
range) and is skipped. -/
theorem parse_total_short_skipped (l : List Char) (h : l.length ≤ 102) :
    parse "" = [] ∧ magOpt l = none ∧ parseLine l = none := by
  have hsub : jsSub l 102 107 = [] := by
    have hd : l.drop 102 = [] := List.drop_eq_nil_of_le h
    have hmin : min 102 107 = 102 := by norm_num
    rw [jsSub, hmin, hd]
    rfl
  have hmag : magOpt l = none := by
    rw [magOpt, hsub]
    rfl
  refine ⟨rfl, hmag, ?_⟩
  unfold parseLine
  rw [hmag]
  cases bsnOpt l <;> cases raOpt l <;> cases deOpt l <;> rfl

/-- Witness for C10: a four-character line is skipped. -/
theorem parse_total_short_skipped_w :
    ("1234".data.length ≤ 102) ∧
    (parse "" = [] ∧ magOpt "1234".data = none ∧ parseLine "1234".data = none) :=
  ⟨by decide, parse_total_short_skipped "1234".data (by decide)⟩

/-! ## Claim theorems: palette and assembly -/

/-- C8: building the palette produces exactly ten pairwise distinct
descriptors, one per letter of OWBAFGKMCS (the palette takes no catalog
input, so this holds regardless of which classes occur); each descriptor
stores the table color with every channel squared as both emissive and base
color, all channels lie in the unit interval, metallic is zero, roughness
one, base-color alpha one, and the extras class letter is the key. -/
theorem createMaterials_palette :
    createMaterials.length = 10 ∧
    createMaterials.map Prod.fst = starClasses ∧
    createMaterials.Pairwise (fun p q => p.2 ≠ q.2) ∧
    ∀ p ∈ createMaterials,
      p.2.cls = p.1 ∧
      p.2.emissive = ⟨(spectralTable p.1).r * (spectralTable p.1).r,
        (spectralTable p.1).g * (spectralTable p.1).g,
        (spectralTable p.1).b * (spectralTable p.1).b⟩ ∧
      p.2.baseColor = ⟨p.2.emissive.r, p.2.emissive.g, p.2.emissive.b, 1⟩ ∧
      p.2.metallic = 0 ∧ p.2.roughness = 1 ∧
      0 ≤ p.2.emissive.r ∧ p.2.emissive.r ≤ 1 ∧
      0 ≤ p.2.emissive.g ∧ p.2.emissive.g ≤ 1 ∧
      0 ≤ p.2.emissive.b ∧ p.2.emissive.b ≤ 1 := by
  refine ⟨by with_unfolding_all rfl, by with_unfolding_all rfl, ?_, ?_⟩
  · simp [createMaterials, starClasses, mkMat, spectralClassToColor,
      spectralTable, List.pairwise_cons]
  · intro p hp
    simp [createMaterials, starClasses, mkMat, spectralClassToColor,
      spectralTable] at hp
    rcases hp with rfl | rfl | rfl | rfl | rfl | rfl | rfl | rfl | rfl | rfl <;>
        refine ⟨rfl, by with_unfolding_all rfl, by with_unfolding_all rfl,
          rfl, rfl, ?_, ?_, ?_, ?_, ?_, ?_⟩ <;>
      exact of_decide_eq_true (by with_unfolding_all rfl)

/-- C1: code behavior at the failing input.  A record whose spectral class
is outside the ten-letter alphabet assembles without error in the model, but
its node's primitive carries no material at all: the lookup materials[sc]
misses, so nothing resembling the default white descriptor is assigned. -/
theorem unknown_class_gets_no_material :
    (render [nStar] createMaterials).sceneChildren.map
        (fun n => n.mesh.prims.map Prim.material) = [[none]] ∧
    matFor createMaterials (some 'N') = none := by
  constructor
  · show [(mkNode createMaterials nStar
        (stepScratch initScratch nStar).q).mesh.prims.map Prim.material] = [[none]]
    show [[matFor createMaterials nStar.sc]] = [[none]]
    have h : matFor createMaterials nStar.sc = none := by with_unfolding_all rfl
    rw [h]
  · with_unfolding_all rfl

/-- The render loop's output does not depend on the incoming scratch state:
every iteration fully overwrites the scratch quaternions before use. -/
theorem renderChildren_eq_map (ms : List (Char × MatDesc)) :
    ∀ (es : List StarData) (s : Scratch),
      renderChildren ms es s = es.map (pureNode ms)
  | [], _ => rfl
  | e :: rest, s => by
    rw [renderChildren, renderChildren_eq_map ms rest]
    rfl

/-- Every letter of the class list has a material in the palette. -/
theorem matLookup_starClasses :
    ∀ c ∈ starClasses, ∃ m, matLookup createMaterials c = some m ∧
      m ∈ createMaterials.map Prod.snd := by
  intro c hc
  fin_cases hc <;>
    exact ⟨_, by with_unfolding_all rfl, by
      simp [createMaterials, starClasses]⟩

/-- C7: the per-star transform pipeline is deterministic and pure: whatever
state the reused scratch quaternions are in, the node list produced by the
render loop is the map of a pure per-record function, so two records with
identical coordinates and magnitude receive identical rounded rotation,
scale and translation wherever they occur. -/
theorem transform_scratch_independent (ms : List (Char × MatDesc))
    (entries : List StarData) (s : Scratch) :
    renderChildren ms entries s = entries.map (pureNode ms) :=
  renderChildren_eq_map ms entries s

/-- C2: assembling N records whose classes lie in the ten-letter alphabet
yields exactly N scene children in catalog order (the map of a per-record
node builder), one single shared position accessor, every node's mesh
primitive referencing that accessor (index zero, not a copy), and every
node's material one of the at most ten shared descriptors. -/
theorem assembly_shared_geometry (entries : List StarData)
    (h : ∀ e ∈ entries, ∃ c ∈ starClasses, e.sc = some c) :
    (render entries createMaterials).sceneChildren.length = entries.length ∧
    (render entries createMaterials).sceneChildren =
      entries.map (pureNode createMaterials) ∧
    (render entries createMaterials).accessors.length = 1 ∧
    (∀ n ∈ (render entries createMaterials).sceneChildren,
      ∀ p ∈ n.mesh.prims, p.position = 0) ∧
    (∀ n ∈ (render entries createMaterials).sceneChildren,
      ∃ m, m ∈ createMaterials.map Prod.snd ∧
        n.mesh.prims.map Prim.material = [some m]) := by
  have hmap : (render entries createMaterials).sceneChildren =
      entries.map (pureNode createMaterials) :=
    renderChildren_eq_map createMaterials entries initScratch
  refine ⟨by rw [hmap, List.length_map], hmap, rfl, ?_, ?_⟩
  · intro n hn p hp
    rw [hmap] at hn
    obtain ⟨e, -, rfl⟩ := List.mem_map.mp hn
    have hpr : p ∈ [(⟨0, matFor createMaterials e.sc, 6⟩ : Prim)] := hp
    rw [List.mem_singleton] at hpr
    rw [hpr]
  · intro n hn
    rw [hmap] at hn
    obtain ⟨e, he, rfl⟩ := List.mem_map.mp hn
    obtain ⟨c, hc, hsc⟩ := h e he
    obtain ⟨m, hm1, hm2⟩ := matLookup_starClasses c hc
    refine ⟨m, hm2, ?_⟩
    show [matFor createMaterials e.sc] = [some m]
    rw [hsc]
    show [matLookup createMaterials c] = [some m]
    rw [hm1]

/-- Witness for C2: a one-record catalog with class A. -/
theorem assembly_shared_geometry_w :
    (∀ e ∈ [aStar], ∃ c ∈ starClasses, e.sc = some c) ∧
    ((render [aStar] createMaterials).sceneChildren.length = [aStar].length ∧
      (render [aStar] createMaterials).sceneChildren =
        [aStar].map (pureNode createMaterials) ∧
      (render [aStar] createMaterials).accessors.length = 1 ∧
      (∀ n ∈ (render [aStar] createMaterials).sceneChildren,
        ∀ p ∈ n.mesh.prims, p.position = 0) ∧
      (∀ n ∈ (render [aStar] createMaterials).sceneChildren,
        ∃ m, m ∈ createMaterials.map Prod.snd ∧
          n.mesh.prims.map Prim.material = [some m])) :=
  ⟨by decide, assembly_shared_geometry [aStar] (by decide)⟩

/-! ## Claim theorems: transforms -/

/-- Squared norm of a quaternion. -/
noncomputable def normSqQ (q : Q4) : ℝ := q.x ^ 2 + q.y ^ 2 + q.z ^ 2 + q.w ^ 2

/-- The Hamilton product multiplies squared norms (the four-square
identity). -/
theorem normSq_mul2 (a b : Q4) : normSqQ (mul2 a b) = normSqQ a * normSqQ b := by
  simp only [mul2, normSqQ]
  ring

/-- An axis-angle quaternion over a unit axis is a unit quaternion. -/
theorem normSq_axisAngle (axis : V3) (deg : ℝ)
    (h : axis.x ^ 2 + axis.y ^ 2 + axis.z ^ 2 = 1) :
    normSqQ (setFromAxisAngle axis deg) = 1 := by
  have hsc := Real.sin_sq_add_cos_sq (deg * 0.5 * (Real.pi / 180))
  simp only [setFromAxisAngle, normSqQ]
  linear_combination (Real.sin (deg * 0.5 * (Real.pi / 180))) ^ 2 * h + hsc

/-- The combined per-star rotation is a unit quaternion. -/
theorem normSq_quatFor (ra de : ℝ) : normSqQ (quatFor ra de) = 1 := by
  rw [quatFor, normSq_mul2,
    normSq_axisAngle vUP ra (by norm_num [vUP]),
    normSq_axisAngle vRIGHT de (by norm_num [vRIGHT])]
  norm_num

/-- Conjugating a vector by a quaternion scales its squared norm by the
square of the quaternion's squared norm (a polynomial identity of the
playcanvas formula). -/
theorem transform_normSq (q : Q4) (v : V3) :
    (transformVector q v).x ^ 2 + (transformVector q v).y ^ 2 +
        (transformVector q v).z ^ 2 =
      normSqQ q ^ 2 * (v.x ^ 2 + v.y ^ 2 + v.z ^ 2) := by
  simp only [transformVector, normSqQ]
  ring

/-- Rounding to three decimals moves a real by at most one half of one
thousandth. -/
theorem round3_close (x : ℝ) : |round3 x - x| ≤ 1 / 2000 := by
  have h1 : |x * 1000 - (round (x * 1000) : ℤ)| ≤ 1 / 2 := abs_sub_round (x * 1000)
  have h2 : round3 x - x = -((x * 1000 - ((round (x * 1000) : ℤ) : ℝ)) / 1000) := by
    rw [round3]
    ring
  rw [h2, abs_neg, abs_div, abs_of_pos (by norm_num : (0 : ℝ) < 1000)]
  linarith

/-- One rounded coordinate's square stays within 13/10000 of the exact
coordinate's square when the exact point lies on the unit sphere. -/
theorem comp_bounds (p t : ℝ) (hp : p ^ 2 ≤ 1) (ht : |t - p| ≤ 1 / 2000) :
    p ^ 2 - 13 / 10000 ≤ t ^ 2 ∧ t ^ 2 ≤ p ^ 2 + 13 / 10000 := by
  obtain ⟨h1, h2⟩ := abs_le.mp ht
  constructor <;>
    nlinarith [sq_nonneg (p - 1000 * (t - p)), sq_nonneg (p + 1000 * (t - p)),
      hp, h1, h2]

/-- C5: the translation is the combined rotation applied to the canonical
forward unit vector, so before rounding it lies exactly on the unit sphere,
and after rounding each component to three decimals its Euclidean norm stays
within 0.002 of one. -/
theorem translation_near_unit (ra de : ℝ) :
    ((transformVector (quatFor ra de) vFORWARD).x ^ 2 +
        (transformVector (quatFor ra de) vFORWARD).y ^ 2 +
        (transformVector (quatFor ra de) vFORWARD).z ^ 2 = 1) ∧
    1 - 2 / 1000 ≤
      Real.sqrt ((round3 (transformVector (quatFor ra de) vFORWARD).x) ^ 2 +
        (round3 (transformVector (quatFor ra de) vFORWARD).y) ^ 2 +
        (round3 (transformVector (quatFor ra de) vFORWARD).z) ^ 2) ∧
    Real.sqrt ((round3 (transformVector (quatFor ra de) vFORWARD).x) ^ 2 +
        (round3 (transformVector (quatFor ra de) vFORWARD).y) ^ 2 +
        (round3 (transformVector (quatFor ra de) vFORWARD).z) ^ 2) ≤
      1 + 2 / 1000 := by
  set v := transformVector (quatFor ra de) vFORWARD with hv
  have hnorm : v.x ^ 2 + v.y ^ 2 + v.z ^ 2 = 1 := by
    rw [hv, transform_normSq, normSq_quatFor]
    norm_num [vFORWARD]
  have hx2 : v.x ^ 2 ≤ 1 := by nlinarith [sq_nonneg v.y, sq_nonneg v.z]
  have hy2 : v.y ^ 2 ≤ 1 := by nlinarith [sq_nonneg v.x, sq_nonneg v.z]
  have hz2 : v.z ^ 2 ≤ 1 := by nlinarith [sq_nonneg v.x, sq_nonneg v.y]
  obtain ⟨hxl, hxu⟩ := comp_bounds v.x (round3 v.x) hx2 (round3_close v.x)
  obtain ⟨hyl, hyu⟩ := comp_bounds v.y (round3 v.y) hy2 (round3_close v.y)
  obtain ⟨hzl, hzu⟩ := comp_bounds v.z (round3 v.z) hz2 (round3_close v.z)
  have hsl : (1 - 2 / 1000 : ℝ) ^ 2 ≤
      (round3 v.x) ^ 2 + (round3 v.y) ^ 2 + (round3 v.z) ^ 2 := by
    nlinarith [hnorm, hxl, hyl, hzl]
  have hsu : (round3 v.x) ^ 2 + (round3 v.y) ^ 2 + (round3 v.z) ^ 2 ≤
      (1 + 2 / 1000 : ℝ) ^ 2 := by
    nlinarith [hnorm, hxu, hyu, hzu]
  refine ⟨hnorm, ?_, ?_⟩
  · have h := Real.sqrt_le_sqrt hsl
    rwa [Real.sqrt_sq (by norm_num : (0 : ℝ) ≤ 1 - 2 / 1000)] at h
  · have h := Real.sqrt_le_sqrt hsu
    rwa [Real.sqrt_sq (by norm_num : (0 : ℝ) ≤ 1 + 2 / 1000)] at h

/-- C6: the pre-rounding scale 4 to the power (6 - magnitude)/4 over 15 is
strictly larger for the smaller magnitude (brighter star), and the scale is
applied identically to all three axes of a node. -/
theorem scale_monotone (m1 m2 : ℝ) (ms : List (Char × MatDesc)) (e : StarData)
    (h : m1 < m2) :
    jsScale m2 < jsScale m1 ∧
    (pureNode ms e).scaleV.x = (pureNode ms e).scaleV.y ∧
    (pureNode ms e).scaleV.y = (pureNode ms e).scaleV.z := by
  refine ⟨?_, rfl, rfl⟩
  have h4 : (1 : ℝ) < 4 := by norm_num
  have hex : (6 - m2) / 4 < (6 - m1) / 4 := by linarith
  have hlt := (Real.rpow_lt_rpow_left_iff h4).mpr hex
  unfold jsScale
  linarith

/-- Witness for C6: magnitude zero against magnitude one. -/
theorem scale_monotone_w :
    (0 : ℝ) < 1 ∧
    (jsScale 1 < jsScale 0 ∧
      (pureNode createMaterials aStar).scaleV.x =
        (pureNode createMaterials aStar).scaleV.y ∧
      (pureNode createMaterials aStar).scaleV.y =
        (pureNode createMaterials aStar).scaleV.z) :=
  ⟨by norm_num, scale_monotone 0 1 createMaterials aStar (by norm_num)⟩

end Starfield
